import Mathlib

/-!
Shallow embedding of the tactilekanban task-printer application
(src/main.py and src/printing.py).

The web layer (`print_from_form`, `print_via_api`) and the printer layer
(`_init_printer`, `ensure_printer_ready`, `print_task`) are embedded as pure
Lean functions.  The process-wide printer singleton is made explicit as an
`Option Printer` state threaded through the operations; the physical ESC/POS
device is modelled as an oracle `Dev : DeviceCall → Except String Unit`
deciding, for each attempted device call, whether it succeeds or raises a
transport error with a given message.  Each operation returns, besides its
result, the list of device calls actually attempted, so "the device layer
observes zero calls" is a statement about that trace.
-/

namespace TaskPrinter

/-- Naive datetime value as used by `datetime.datetime`: calendar fields only
(no timezone, no sub-second precision — the application formats only down to
minutes and the form endpoint parses `datetime-local` strings). -/
structure Datetime where
  year : Nat
  month : Nat
  day : Nat
  hour : Nat
  minute : Nat
  second : Nat
deriving DecidableEq, Repr

/-- Zero-pad a natural number to two digits, as Python `%m`, `%d`, `%H`, `%M`. -/
def pad2 (n : Nat) : String :=
  if n < 10 then "0" ++ toString n else toString n

/-- Zero-pad a natural number to four digits, as Python `%Y`
("Year with century as a decimal number. 0001, 0002, …, 2013"). -/
def pad4 (n : Nat) : String :=
  if n < 10 then "000" ++ toString n
  else if n < 100 then "00" ++ toString n
  else if n < 1000 then "0" ++ toString n
  else toString n

/-- Python `f"{dt:%Y-%m-%d %H:%M}"`. -/
def formatYMDHM (dt : Datetime) : String :=
  pad4 dt.year ++ "-" ++ pad2 dt.month ++ "-" ++ pad2 dt.day ++ " "
    ++ pad2 dt.hour ++ ":" ++ pad2 dt.minute

/-- Python `str.strip()` with no argument: remove leading and trailing
whitespace (modelled with ASCII whitespace). -/
def pyStrip (s : String) : String :=
  ⟨((s.data.dropWhile Char.isWhitespace).reverse.dropWhile Char.isWhitespace).reverse⟩

/-- Value of one character as a digit, as accepted by Python `int(s, base)`:
`0`-`9`, `a`-`z`, `A`-`Z`. -/
def digitVal (c : Char) : Option Nat :=
  if c.isDigit then some (c.toNat - 48)
  else if 97 ≤ c.toNat ∧ c.toNat ≤ 122 then some (c.toNat - 97 + 10)
  else if 65 ≤ c.toNat ∧ c.toNat ≤ 90 then some (c.toNat - 65 + 10)
  else none

/-- Digit-sequence part of Python `int(s, base)`: one or more digits of the
base, with single underscores allowed between digits (not leading, trailing,
or doubled).  `prevDigit` records whether the previous character was a digit. -/
def parseDigitsAux (base : Nat) : List Char → Nat → Bool → Option Nat
  | [], acc, prevDigit => if prevDigit then some acc else none
  | c :: rest, acc, prevDigit =>
    if c = Char.ofNat 95 then
      if prevDigit then parseDigitsAux base rest acc false else none
    else
      match digitVal c with
      | some v => if v < base then parseDigitsAux base rest (acc * base + v) true else none
      | none => none

/-- Unsigned part of Python `int(s, 16)` after sign stripping: an optional
`0x`/`0X` base marker (an underscore may follow the marker), then hex digits. -/
def parseUnsignedHex (cs : List Char) : Option Nat :=
  match cs with
  | '0' :: x :: rest =>
    if x = 'x' ∨ x = 'X' then
      match rest with
      | c :: rest2 =>
        if c = Char.ofNat 95 then parseDigitsAux 16 rest2 0 false
        else parseDigitsAux 16 rest 0 false
      | [] => none
    else parseDigitsAux 16 cs 0 false
  | _ => parseDigitsAux 16 cs 0 false

/-- Python `int(s, 16)`: surrounding whitespace stripped, optional sign,
optional `0x` marker, hex digits with underscore separators.  Returns `none`
where Python raises `ValueError`. -/
def pyIntBase16 (s : String) : Option Int :=
  match (pyStrip s).toList with
  | '+' :: rest => (parseUnsignedHex rest).map Int.ofNat
  | '-' :: rest => (parseUnsignedHex rest).map (fun n => -(n : Int))
  | cs => (parseUnsignedHex cs).map Int.ofNat

/-- Python `int(s)` (base 10): surrounding whitespace stripped, optional sign,
decimal digits with underscore separators.  Returns `none` where Python raises
`ValueError`. -/
def pyIntBase10 (s : String) : Option Int :=
  match (pyStrip s).toList with
  | '+' :: rest => (parseDigitsAux 10 rest 0 false).map Int.ofNat
  | '-' :: rest => (parseDigitsAux 10 rest 0 false).map (fun n => -(n : Int))
  | cs => (parseDigitsAux 10 cs 0 false).map Int.ofNat

/-- Gregorian leap-year rule, as `calendar.isleap`. -/
def isLeap (y : Nat) : Bool :=
  (y % 4 = 0 && y % 100 ≠ 0) || y % 400 = 0

/-- Number of days in a month, as validated by the `datetime` constructor. -/
def daysInMonth (y m : Nat) : Nat :=
  if m = 2 then (if isLeap y then 29 else 28)
  else if m = 4 ∨ m = 6 ∨ m = 9 ∨ m = 11 then 30
  else 31

/-- Range validation performed by the `datetime.datetime` constructor
(`MINYEAR = 1`, `MAXYEAR = 9999`). -/
def mkDatetime (y mo d h mi s : Nat) : Option Datetime :=
  if 1 ≤ y ∧ y ≤ 9999 ∧ 1 ≤ mo ∧ mo ≤ 12 ∧ 1 ≤ d ∧ d ≤ daysInMonth y mo
      ∧ h ≤ 23 ∧ mi ≤ 59 ∧ s ≤ 59 then
    some ⟨y, mo, d, h, mi, s⟩
  else none

/-- Two ASCII digit characters as a number, else `none`. -/
def digit2 (a b : Char) : Option Nat :=
  if a.isDigit ∧ b.isDigit then some ((a.toNat - 48) * 10 + (b.toNat - 48))
  else none

/-- Four ASCII digit characters as a number, else `none`. -/
def digit4 (a b c d : Char) : Option Nat :=
  if a.isDigit ∧ b.isDigit ∧ c.isDigit ∧ d.isDigit then
    some ((a.toNat - 48) * 1000 + (b.toNat - 48) * 100 + (c.toNat - 48) * 10 + (d.toNat - 48))
  else none

/-- Time-of-day part of `datetime.fromisoformat`: `HH:MM` or `HH:MM:SS`. -/
def parseTimePart : List Char → Option (Nat × Nat × Nat)
  | [h1, h2, ':', m1, m2] =>
    match digit2 h1 h2, digit2 m1 m2 with
    | some h, some m => some (h, m, 0)
    | _, _ => none
  | [h1, h2, ':', m1, m2, ':', s1, s2] =>
    match digit2 h1 h2, digit2 m1 m2, digit2 s1 s2 with
    | some h, some m, some s => some (h, m, s)
    | _, _, _ => none
  | _ => none

/-- Model of `datetime.fromisoformat` on the formats this application
receives (`datetime-local` form values): `YYYY-MM-DD`, optionally followed by
a single separator character and `HH:MM` or `HH:MM:SS`.  Calendar ranges are
validated as by the `datetime` constructor; returns `none` where Python
raises `ValueError`.  (Fractional seconds and timezone offsets, which the
HTML form never produces, are not modelled.) -/
def fromisoformat (s : String) : Option Datetime :=
  match s.toList with
  | [y1, y2, y3, y4, '-', m1, m2, '-', d1, d2] =>
    match digit4 y1 y2 y3 y4, digit2 m1 m2, digit2 d1 d2 with
    | some y, some mo, some d => mkDatetime y mo d 0 0 0
    | _, _, _ => none
  | y1 :: y2 :: y3 :: y4 :: '-' :: m1 :: m2 :: '-' :: d1 :: d2 :: _sep :: rest =>
    match digit4 y1 y2 y3 y4, digit2 m1 m2, digit2 d1 d2, parseTimePart rest with
    | some y, some mo, some d, some (h, mi, sec) => mkDatetime y mo d h mi sec
    | _, _, _, _ => none
  | _ => none

/-- ASCII apostrophe, used by Python `repr` of a string. -/
def pyQuote : String := String.singleton (Char.ofNat 39)

/-- Python `repr` of a string as it appears in the `int()` error message
(quoting only; escape sequences inside the string are not modelled). -/
def pyReprStr (s : String) : String := pyQuote ++ s ++ pyQuote

/-- Process environment: a partial map from variable names to values,
as read through `os.environ.get`. -/
def Env : Type := String → Option String

/-- Python truthiness test `not v` on an `os.environ.get` result: true when
the variable is absent or its value is the empty string. -/
def envMissing : Option String → Bool
  | none => true
  | some s => s = ""

/-- Python exceptions the application raises or catches: `ValueError` from
configuration/parsing, and transport errors propagated from the escpos
device calls.  `message` is Python `str(exc)`. -/
inductive PyExc where
  | valueError (msg : String)
  | deviceError (msg : String)
deriving DecidableEq, Repr

/-- Python `str(exc)`. -/
def PyExc.message : PyExc → String
  | .valueError m => m
  | .deviceError m => m

/-- Message of the `ValueError` raised when an ID variable is missing
(src/printing.py line 33). -/
def msgIdsMustBeSet : String := "PRINTER_VENDOR_ID and PRINTER_PRODUCT_ID must be set"

/-- Message of the `ValueError` raised when an ID variable is not valid
hexadecimal (src/printing.py line 39). -/
def msgIdsMustBeHex : String := "Vendor and product IDs must be valid hexadecimal strings"

/-- Message of the `ValueError` raised by Python `int(s)` on a bad literal. -/
def msgIntLiteral (s : String) : String :=
  "invalid literal for int() with base 10: " ++ pyReprStr s

/-- The `escpos.printer.Usb` handle, holding the configuration it was
constructed with.  Transport behaviour is modelled separately by the device
oracle, so constructing the handle itself does not fail. -/
structure Printer where
  vid : Int
  pid : Int
  interface : Int
  profile : Option String
deriving DecidableEq, Repr

/-- `_init_printer` (src/printing.py lines 22-44): read `PRINTER_VENDOR_ID`
and `PRINTER_PRODUCT_ID` (required, hexadecimal), `PRINTER_INTERFACE`
(optional, `int(...)`, default 0), `PRINTER_PROFILE` (optional), and
construct the `Usb` handle.  Returns the raised `ValueError` on bad
configuration. -/
def _init_printer (env : Env) : Except PyExc Printer :=
  let vendor_hex := env "PRINTER_VENDOR_ID"
  let product_hex := env "PRINTER_PRODUCT_ID"
  if envMissing vendor_hex || envMissing product_hex then
    .error (.valueError msgIdsMustBeSet)
  else
    match pyIntBase16 (vendor_hex.getD ""), pyIntBase16 (product_hex.getD "") with
    | some vid, some pid =>
      match env "PRINTER_INTERFACE" with
      | none => .ok ⟨vid, pid, 0, env "PRINTER_PROFILE"⟩
      | some s =>
        match pyIntBase10 s with
        | some n => .ok ⟨vid, pid, n, env "PRINTER_PROFILE"⟩
        | none => .error (.valueError (msgIntLiteral s))
    | _, _ => .error (.valueError msgIdsMustBeHex)

/-- `ensure_printer_ready` (src/printing.py lines 47-55) acting on the
explicit singleton state `_printer : Option Printer`: when unset, run
`_init_printer` and store the result; otherwise do nothing.  Returns the new
state, or the exception `_init_printer` raised. -/
def ensure_printer_ready (env : Env) : Option Printer → Except PyExc (Option Printer)
  | some p => .ok (some p)
  | none => (_init_printer env).map some

/-- One call into the escpos device driver, as issued by `print_task`:
`set(align=..., text_type=...)` (absent keyword arguments are `none`),
`textln(s)`, or `cut()`. -/
inductive DeviceCall where
  | set (align : Option String) (text_type : Option String)
  | textln (s : String)
  | cut
deriving DecidableEq, Repr

/-- The physical device as an oracle: for each attempted call, either it
completes or it raises a transport error with the given message. -/
def Dev : Type := DeviceCall → Except String Unit

/-- Run a list of device calls in order, stopping at the first failure.
Returns the calls actually attempted (the failing call included) and the
overall outcome. -/
def runCalls (dev : Dev) : List DeviceCall → List DeviceCall × Except String Unit
  | [] => ([], .ok ())
  | c :: rest =>
    match dev c with
    | .ok _ =>
      let (tr, r) := runCalls dev rest
      (c :: tr, r)
    | .error e => ([c], .error e)

/-- The `task_lines` list built by `print_task` (src/printing.py
lines 83-88). -/
def task_lines (title description : String) (created due : Datetime) : List String :=
  [title,
   description,
   "Created: " ++ formatYMDHM created,
   "Due:     " ++ formatYMDHM due]

/-- The sequence of device calls `print_task` issues (src/printing.py
lines 90-96): bold style, `task_lines[0]` with an extra newline, normal
style, each remaining line with an extra newline, then a paper cut. -/
def print_task_calls (title description : String) (created due : Datetime) : List DeviceCall :=
  let lines := task_lines title description created due
  [DeviceCall.set (some "left") (some "b"),
   DeviceCall.textln (lines.headD "" ++ "\n"),
   DeviceCall.set none (some "normal")]
  ++ (lines.drop 1).map (fun line => DeviceCall.textln (line ++ "\n"))
  ++ [DeviceCall.cut]

/-- `print_task` (src/printing.py lines 58-96) acting on the explicit
singleton state: lazily run `_init_printer` when the singleton is unset, then
issue the device-call sequence.  Returns the outcome (`ValueError` from a
failed lazy initialization, or the first transport error), the new singleton
state, and the trace of device calls attempted. -/
def print_task (env : Env) (dev : Dev) (st : Option Printer)
    (title description : String) (created due : Datetime) :
    Except PyExc Unit × Option Printer × List DeviceCall :=
  match st with
  | some p =>
    let (tr, r) := runCalls dev (print_task_calls title description created due)
    (r.mapError .deviceError, some p, tr)
  | none =>
    match _init_printer env with
    | .error e => (.error e, none, [])
    | .ok p =>
      let (tr, r) := runCalls dev (print_task_calls title description created due)
      (r.mapError .deviceError, some p, tr)

/-- Validator `PrintRequest.not_empty` (src/main.py lines 64-68): reject a
value whose `strip()` is empty. -/
def not_empty (v : String) : Except PyExc String :=
  if pyStrip v = "" then .error (.valueError "Field cannot be empty") else .ok v

/-- An ID environment variable that `_init_printer` rejects: absent (or the
empty string, which `not vendor_hex` also treats as absent), or not a valid
hexadecimal string for `int(-, 16)`. -/
def badIdVar (v : Option String) : Prop :=
  envMissing v = true ∨ pyIntBase16 (v.getD "") = none

/-- Response of `POST /api/print`: HTTP 200 `{"status": "success"}`,
HTTP 422 validation error (pydantic, before the handler runs), or
HTTP 500 `{"status": "error", "detail": detail}`. -/
inductive ApiResponse where
  | success
  | validationError
  | error (detail : String)
deriving DecidableEq, Repr

/-- `print_via_api` (src/main.py lines 119-130) together with the pydantic
validation of its `PrintRequest` payload: a payload whose `title` or
`description` fails `not_empty` is rejected before the handler runs; the
handler calls `print_task` and maps its outcome to the response.  Returns the
response, the new singleton state, and the device-call trace. -/
def print_via_api (env : Env) (dev : Dev) (st : Option Printer)
    (title description : String) (created_on due_by : Datetime) :
    ApiResponse × Option Printer × List DeviceCall :=
  match not_empty title with
  | .error _ => (.validationError, st, [])
  | .ok _ =>
    match not_empty description with
    | .error _ => (.validationError, st, [])
    | .ok _ =>
      let (r, st2, tr) := print_task env dev st title description created_on due_by
      match r with
      | .ok _ => (.success, st2, tr)
      | .error e => (.error e.message, st2, tr)

/-- Response of `POST /print`: the confirmation page (HTTP 200), a plain-text
HTTP 400 body, or a plain-text HTTP 500 body. -/
inductive FormResponse where
  | confirmation (title description : String) (created_on due_by : Datetime)
  | badRequest (body : String)
  | serverError (body : String)
deriving DecidableEq, Repr

/-- `print_from_form` (src/main.py lines 81-116): parse `created_on` and
`due_by` with `datetime.fromisoformat`, answering HTTP 400 on a parse
failure; then call `print_task`, answering HTTP 500 with
`"Error printing: " + str(exc)` on an exception and the confirmation page on
success.  Returns the response, the new singleton state, and the device-call
trace. -/
def print_from_form (env : Env) (dev : Dev) (st : Option Printer)
    (title description created_on due_by : String) :
    FormResponse × Option Printer × List DeviceCall :=
  match fromisoformat created_on with
  | none => (.badRequest "Invalid date/time format", st, [])
  | some created =>
    match fromisoformat due_by with
    | none => (.badRequest "Invalid date/time format", st, [])
    | some due =>
      let (r, st2, tr) := print_task env dev st title description created due
      match r with
      | .ok _ => (.confirmation title description created due, st2, tr)
      | .error e => (.serverError ("Error printing: " ++ e.message), st2, tr)

/-- One printer-layer entry point, for stating the singleton invariant over
arbitrary sequential call sequences. -/
inductive POp where
  | ensure
  | task (title description : String) (created due : Datetime)

/-- Singleton state paired with a count of how many times a printer handle
has been constructed (a `none → some` transition of the singleton). -/
structure PState where
  printer : Option Printer
  constructions : Nat
deriving DecidableEq, Repr

/-- Run one printer-layer operation, counting constructions. -/
def stepOp (env : Env) (dev : Dev) (st : PState) : POp → PState
  | .ensure =>
    match ensure_printer_ready env st.printer with
    | .ok p2 =>
      ⟨p2, st.constructions + (if st.printer.isNone ∧ p2.isSome then 1 else 0)⟩
    | .error _ => st
  | .task t d c u =>
    let (_, p2, _) := print_task env dev st.printer t d c u
    ⟨p2, st.constructions + (if st.printer.isNone ∧ p2.isSome then 1 else 0)⟩

/-- Run a sequential sequence of printer-layer operations from a fresh
process state (singleton unset, nothing constructed). -/
def runOps (env : Env) (dev : Dev) (ops : List POp) : PState :=
  ops.foldl (stepOp env dev) ⟨none, 0⟩

/-- A well-formed environment: both IDs set to the hexadecimal examples from
the module docstring. -/
def env0 : Env := fun k =>
  if k = "PRINTER_VENDOR_ID" then some "0x0416"
  else if k = "PRINTER_PRODUCT_ID" then some "0x5011"
  else none

/-- An environment with no printer variables set. -/
def envEmpty : Env := fun _ => none

/-- `env0` with a non-integer `PRINTER_INTERFACE`. -/
def envBadInterface : Env := fun k =>
  if k = "PRINTER_INTERFACE" then some "usb0" else env0 k

/-- A device on which every call succeeds. -/
def devOK : Dev := fun _ => .ok ()

/-- A device on which every call raises a transport error. -/
def devFail : Dev := fun _ => .error "USB device not found"

/-- A device on which every call raises an exception whose message is the
empty string (Python `str(exc)` of an exception constructed without
arguments). -/
def devFailEmptyMsg : Dev := fun _ => .error ""

/-- The printer handle `_init_printer` builds from `env0`. -/
def printer0 : Printer := ⟨1046, 20497, 0, none⟩

/-- The creation timestamp `2024-01-05T09:30`. -/
def dtCreated : Datetime := ⟨2024, 1, 5, 9, 30, 0⟩

/-- The due timestamp `2024-01-05T17:00`. -/
def dtDue : Datetime := ⟨2024, 1, 5, 17, 0, 0⟩

/-- On a device whose calls all succeed, every call of the sequence is
attempted and the run succeeds. -/
theorem runCalls_all_ok (dev : Dev) (h : ∀ c, dev c = .ok ()) :
    ∀ l, runCalls dev l = (l, Except.ok ()) := by
  intro l
  induction l with
  | nil => rfl
  | cons c rest ih => simp [runCalls, h c, ih]

/-- With the singleton set, `print_task` does not touch the configuration:
it runs the call sequence and keeps the state. -/
theorem print_task_some (env : Env) (dev : Dev) (p : Printer)
    (t d : String) (c u : Datetime) :
    print_task env dev (some p) t d c u =
      ((runCalls dev (print_task_calls t d c u)).2.mapError PyExc.deviceError, some p,
        (runCalls dev (print_task_calls t d c u)).1) := by
  rcases h : runCalls dev (print_task_calls t d c u) with ⟨tr, r⟩
  simp [print_task, h]

/-- With the singleton unset and a failing configuration, `print_task`
re-raises the initialization error before any device call. -/
theorem print_task_none_err (env : Env) (dev : Dev) (e : PyExc)
    (t d : String) (c u : Datetime) (h : _init_printer env = .error e) :
    print_task env dev none t d c u = (.error e, none, []) := by
  simp [print_task, h]

/-- With the singleton unset and a working configuration, `print_task`
stores the constructed handle and runs the call sequence. -/
theorem print_task_none_ok (env : Env) (dev : Dev) (p : Printer)
    (t d : String) (c u : Datetime) (h : _init_printer env = .ok p) :
    print_task env dev none t d c u =
      ((runCalls dev (print_task_calls t d c u)).2.mapError PyExc.deviceError, some p,
        (runCalls dev (print_task_calls t d c u)).1) := by
  rcases h2 : runCalls dev (print_task_calls t d c u) with ⟨tr, r⟩
  simp [print_task, h, h2]

/-- C1: for every `POST /api/print` request passing structural validation
(non-empty trimmed title and description; timestamps already parsed), the
endpoint answers `{"status": "success"}` if and only if the underlying
`print_task` call completes without raising an exception. -/
theorem api_success_iff_print_task_ok
    (env : Env) (dev : Dev) (st : Option Printer) (t d : String) (c u : Datetime)
    (ht : pyStrip t ≠ "") (hd : pyStrip d ≠ "") :
    (print_via_api env dev st t d c u).1 = ApiResponse.success ↔
      (print_task env dev st t d c u).1 = Except.ok () := by
  rcases hpt : print_task env dev st t d c u with ⟨r, st2, tr⟩
  simp only [print_via_api, not_empty, if_neg ht, if_neg hd, hpt]
  cases r with
  | ok v => simp
  | error e => simp

/-- Witness for C1 at a concrete request and a fully working device. -/
theorem api_success_iff_print_task_ok_witness :
    pyStrip "Fix door" ≠ "" ∧ pyStrip "Hinge squeaks" ≠ "" ∧
      ((print_via_api env0 devOK (some printer0) "Fix door" "Hinge squeaks" dtCreated dtDue).1
          = ApiResponse.success ↔
        (print_task env0 devOK (some printer0) "Fix door" "Hinge squeaks" dtCreated dtDue).1
          = Except.ok ()) :=
  ⟨by decide, by decide,
    api_success_iff_print_task_ok env0 devOK (some printer0) "Fix door" "Hinge squeaks"
      dtCreated dtDue (by decide) (by decide)⟩

/-- C2: a submission whose title or description strips to the empty string
is rejected by validation before the handler runs: the response is the
validation error, the singleton state is untouched, and the device-call
trace is empty. -/
theorem empty_fields_rejected_before_device
    (env : Env) (dev : Dev) (st : Option Printer) (t d : String) (c u : Datetime)
    (h : pyStrip t = "" ∨ pyStrip d = "") :
    print_via_api env dev st t d c u = (ApiResponse.validationError, st, []) := by
  rcases h with h | h
  · simp [print_via_api, not_empty, h]
  · by_cases ht : pyStrip t = ""
    · simp [print_via_api, not_empty, ht]
    · simp [print_via_api, not_empty, ht, h]

/-- Witness for C2 at a whitespace-only title. -/
theorem empty_fields_rejected_before_device_witness :
    (pyStrip "   " = "" ∨ pyStrip "x" = "") ∧
      print_via_api env0 devOK (some printer0) "   " "x" dtCreated dtDue
        = (ApiResponse.validationError, some printer0, []) :=
  ⟨Or.inl (by decide),
    empty_fields_rejected_before_device env0 devOK (some printer0) "   " "x" dtCreated dtDue
      (Or.inl (by decide))⟩

/-- C3: the third of the four built lines is `"Created: "` followed by the
creation timestamp as `YYYY-MM-DD HH:MM`, and the fourth is `"Due:     "`
(five spaces after the colon) followed by the due timestamp in the same
format; at `2024-01-05T09:30` and `2024-01-05T17:00` these render exactly
`"Created: 2024-01-05 09:30"` and `"Due:     2024-01-05 17:00"`. -/
theorem created_due_line_format :
    (∀ (t d : String) (c u : Datetime),
        (task_lines t d c u).get? 2 = some ("Created: " ++ formatYMDHM c) ∧
          (task_lines t d c u).get? 3 = some ("Due:     " ++ formatYMDHM u)) ∧
      "Created: " ++ formatYMDHM dtCreated = "Created: 2024-01-05 09:30" ∧
      "Due:     " ++ formatYMDHM dtDue = "Due:     2024-01-05 17:00" :=
  ⟨fun _ _ _ _ => ⟨rfl, rfl⟩, by decide, by decide⟩

/-- C4: `print_task` issues exactly the seven device calls: bold style, the
title line, normal style, the description line, the Created line and the Due
line in order, then the paper cut as the final call; each written line is the
line content with one explicit extra `"\n"` appended.  On a device whose
calls all succeed, the attempted-call trace of `print_task` is exactly this
sequence. -/
theorem print_task_device_call_sequence :
    (∀ (t d : String) (c u : Datetime),
        print_task_calls t d c u =
          [DeviceCall.set (some "left") (some "b"),
            DeviceCall.textln (t ++ "\n"),
            DeviceCall.set none (some "normal"),
            DeviceCall.textln (d ++ "\n"),
            DeviceCall.textln (("Created: " ++ formatYMDHM c) ++ "\n"),
            DeviceCall.textln (("Due:     " ++ formatYMDHM u) ++ "\n"),
            DeviceCall.cut]) ∧
      ∀ (env : Env) (dev : Dev) (p : Printer) (t d : String) (c u : Datetime),
        (∀ call, dev call = Except.ok ()) →
          (print_task env dev (some p) t d c u).2.2 = print_task_calls t d c u := by
  constructor
  · intro t d c u
    rfl
  · intro env dev p t d c u h
    rw [print_task_some, runCalls_all_ok dev h]

/-- Witness for C4 on a fully working device. -/
theorem print_task_device_call_sequence_witness :
    (print_task env0 devOK (some printer0) "T" "D" dtCreated dtDue).2.2
      = print_task_calls "T" "D" dtCreated dtDue :=
  print_task_device_call_sequence.2 env0 devOK printer0 "T" "D" dtCreated dtDue
    (fun _ => rfl)

/-- C5: when `PRINTER_VENDOR_ID` or `PRINTER_PRODUCT_ID` is missing or not
valid hexadecimal, `_init_printer` raises a `ValueError`; the startup
`ensure_printer_ready` call and a first `print_task` call both raise that
configuration error, and no device call is attempted. -/
theorem bad_id_config_fails_everywhere (env : Env)
    (h : badIdVar (env "PRINTER_VENDOR_ID") ∨ badIdVar (env "PRINTER_PRODUCT_ID")) :
    (∃ m, _init_printer env = Except.error (PyExc.valueError m)) ∧
      (∃ m, ensure_printer_ready env none = Except.error (PyExc.valueError m)) ∧
      ∀ (dev : Dev) (t d : String) (c u : Datetime),
        ∃ m, (print_task env dev none t d c u).1 = Except.error (PyExc.valueError m) ∧
          (print_task env dev none t d c u).2.2 = [] := by
  have key : ∃ m, _init_printer env = Except.error (PyExc.valueError m) := by
    by_cases hm : (envMissing (env "PRINTER_VENDOR_ID")
        || envMissing (env "PRINTER_PRODUCT_ID")) = true
    · exact ⟨msgIdsMustBeSet, by simp [_init_printer, hm]⟩
    · simp only [Bool.or_eq_true, not_or, Bool.not_eq_true] at hm
      obtain ⟨hv, hp⟩ := hm
      rcases h with (hmiss | hhex) | (hmiss | hhex)
      · rw [hv] at hmiss; exact absurd hmiss (by simp)
      · exact ⟨msgIdsMustBeHex, by simp [_init_printer, hv, hp, hhex]⟩
      · rw [hp] at hmiss; exact absurd hmiss (by simp)
      · cases hvp : pyIntBase16 ((env "PRINTER_VENDOR_ID").getD "") with
        | none => exact ⟨msgIdsMustBeHex, by simp [_init_printer, hv, hp, hvp]⟩
        | some vid => exact ⟨msgIdsMustBeHex, by simp [_init_printer, hv, hp, hvp, hhex]⟩
  obtain ⟨m, hm⟩ := key
  refine ⟨⟨m, hm⟩, ⟨m, by simp [ensure_printer_ready, Except.map, hm]⟩, fun dev t d c u => ⟨m, ?_, ?_⟩⟩
  · rw [print_task_none_err env dev _ t d c u hm]
  · rw [print_task_none_err env dev _ t d c u hm]

/-- Witness for C5: with no printer variables set, initialization, the
startup check and a first print all fail with the configuration error. -/
theorem bad_id_config_fails_everywhere_witness :
    (badIdVar (envEmpty "PRINTER_VENDOR_ID") ∨ badIdVar (envEmpty "PRINTER_PRODUCT_ID")) ∧
      ((∃ m, _init_printer envEmpty = Except.error (PyExc.valueError m)) ∧
        (∃ m, ensure_printer_ready envEmpty none = Except.error (PyExc.valueError m)) ∧
        ∀ (dev : Dev) (t d : String) (c u : Datetime),
          ∃ m, (print_task envEmpty dev none t d c u).1 = Except.error (PyExc.valueError m) ∧
            (print_task envEmpty dev none t d c u).2.2 = []) :=
  ⟨Or.inl (Or.inl rfl), bad_id_config_fails_everywhere envEmpty (Or.inl (Or.inl rfl))⟩

/-- Counterexample to C6 as stated: a device call may raise an exception
whose message is the empty string, in which case the endpoint does answer
`status: "error"` with `detail` equal to that message — but the detail is
empty, not non-empty. -/
theorem api_error_empty_detail_cex :
    (print_task env0 devFailEmptyMsg (some printer0) "T" "D" dtCreated dtDue).1
        = Except.error (PyExc.deviceError "") ∧
      (print_via_api env0 devFailEmptyMsg (some printer0) "T" "D" dtCreated dtDue).1
        = ApiResponse.error "" ∧
      ("" : String).length = 0 :=
  ⟨rfl, rfl, rfl⟩

/-- C6 amended: a device-call failure during `POST /api/print` yields the
HTTP 500 error response whose `detail` equals the message of the underlying
exception; the detail is non-empty whenever that message is non-empty. -/
theorem api_error_detail_eq_exception_message
    (env : Env) (dev : Dev) (st : Option Printer) (t d : String) (c u : Datetime) (e : PyExc)
    (ht : pyStrip t ≠ "") (hd : pyStrip d ≠ "")
    (hf : (print_task env dev st t d c u).1 = Except.error e) :
    (print_via_api env dev st t d c u).1 = ApiResponse.error e.message ∧
      (e.message ≠ "" → (print_via_api env dev st t d c u).1 ≠ ApiResponse.error "") := by
  rcases hpt : print_task env dev st t d c u with ⟨r, st2, tr⟩
  rw [hpt] at hf
  simp only at hf
  subst hf
  have h1 : (print_via_api env dev st t d c u).1 = ApiResponse.error e.message := by
    simp [print_via_api, not_empty, if_neg ht, if_neg hd, hpt]
  refine ⟨h1, fun hne => ?_⟩
  rw [h1]
  simp [hne]

/-- Witness for the amended C6 at a concrete failing device. -/
theorem api_error_detail_eq_exception_message_witness :
    (print_via_api env0 devFail (some printer0) "T" "D" dtCreated dtDue).1
        = ApiResponse.error (PyExc.deviceError "USB device not found").message ∧
      ((PyExc.deviceError "USB device not found").message ≠ "" →
        (print_via_api env0 devFail (some printer0) "T" "D" dtCreated dtDue).1
          ≠ ApiResponse.error "") :=
  api_error_detail_eq_exception_message env0 devFail (some printer0) "T" "D" dtCreated dtDue
    (PyExc.deviceError "USB device not found") (by decide) (by decide) rfl

/-- C7: a form submission whose `created_on` or `due_by` does not parse is
answered with the HTTP 400 plain-text error, the singleton state is
untouched, and the printer layer attempts no device call. -/
theorem form_unparsable_datetime_rejected
    (env : Env) (dev : Dev) (st : Option Printer) (t d s1 s2 : String)
    (h : fromisoformat s1 = none ∨ fromisoformat s2 = none) :
    print_from_form env dev st t d s1 s2
      = (FormResponse.badRequest "Invalid date/time format", st, []) := by
  rcases h with h | h
  · simp [print_from_form, h]
  · cases h1 : fromisoformat s1 with
    | none => simp [print_from_form, h1]
    | some c => simp [print_from_form, h1, h]

/-- Witness for C7 at a concrete unparsable `created_on`. -/
theorem form_unparsable_datetime_rejected_witness :
    fromisoformat "01/05/2024 09:30" = none ∧
      print_from_form env0 devOK (some printer0) "T" "D" "01/05/2024 09:30" "2024-01-05T17:00"
        = (FormResponse.badRequest "Invalid date/time format", some printer0, []) :=
  ⟨by decide,
    form_unparsable_datetime_rejected env0 devOK (some printer0) "T" "D"
      "01/05/2024 09:30" "2024-01-05T17:00" (Or.inl (by decide))⟩

/-- Invariant carried through any sequential sequence of printer-layer
operations: while the singleton is unset nothing has been constructed, and
never more than one construction happens. -/
def singletonInv (st : PState) : Prop :=
  (st.printer = none → st.constructions = 0) ∧ st.constructions ≤ 1

/-- One printer-layer operation preserves the singleton invariant. -/
theorem stepOp_preserves (env : Env) (dev : Dev) (st : PState) (op : POp)
    (h : singletonInv st) : singletonInv (stepOp env dev st op) := by
  obtain ⟨h0, h1⟩ := h
  cases op with
  | ensure =>
    cases hp : st.printer with
    | some p =>
      have hs : stepOp env dev st POp.ensure = ⟨some p, st.constructions⟩ := by
        simp [stepOp, ensure_printer_ready, hp]
      rw [hs]
      exact ⟨by simp, h1⟩
    | none =>
      have hc := h0 hp
      cases hi : _init_printer env with
      | error e =>
        have hs : stepOp env dev st POp.ensure = st := by
          simp [stepOp, ensure_printer_ready, Except.map, hp, hi]
        rw [hs]
        exact ⟨h0, h1⟩
      | ok p =>
        have hs : stepOp env dev st POp.ensure = ⟨some p, 1⟩ := by
          simp [stepOp, ensure_printer_ready, Except.map, hp, hi, hc]
        rw [hs]
        exact ⟨by simp, le_refl 1⟩
  | task t d c u =>
    cases hp : st.printer with
    | some p =>
      have hs : stepOp env dev st (POp.task t d c u) = ⟨some p, st.constructions⟩ := by
        simp [stepOp, hp, print_task_some]
      rw [hs]
      exact ⟨by simp, h1⟩
    | none =>
      have hc := h0 hp
      cases hi : _init_printer env with
      | error e =>
        have hs : stepOp env dev st (POp.task t d c u) = ⟨none, st.constructions⟩ := by
          simp [stepOp, hp, print_task_none_err env dev e t d c u hi]
        rw [hs]
        exact ⟨fun _ => hc, h1⟩
      | ok p =>
        have hs : stepOp env dev st (POp.task t d c u) = ⟨some p, 1⟩ := by
          simp [stepOp, hp, print_task_none_ok env dev p t d c u hi, hc]
        rw [hs]
        exact ⟨by simp, le_refl 1⟩

/-- Folding printer-layer operations preserves the singleton invariant. -/
theorem foldl_stepOp_preserves (env : Env) (dev : Dev) :
    ∀ (ops : List POp) (st : PState), singletonInv st →
      singletonInv (ops.foldl (stepOp env dev) st)
  | [], _, h => h
  | op :: rest, st, h =>
    foldl_stepOp_preserves env dev rest _ (stepOp_preserves env dev st op h)

/-- C8: `ensure_printer_ready` is idempotent once the singleton is set; from
an unset singleton it runs exactly `_init_printer`; `print_task` from an
unset singleton re-raises any `_init_printer` configuration error (so a bad
configuration still fails on the first print); and over any sequential
sequence of `ensure_printer_ready` / `print_task` calls from a fresh process
the printer handle is constructed at most once. -/
theorem printer_singleton_constructed_at_most_once :
    (∀ (env : Env) (p : Printer), ensure_printer_ready env (some p) = Except.ok (some p)) ∧
      (∀ env : Env, ensure_printer_ready env none = (_init_printer env).map some) ∧
      (∀ (env : Env) (dev : Dev) (t d : String) (c u : Datetime) (e : PyExc),
        _init_printer env = Except.error e →
          (print_task env dev none t d c u).1 = Except.error e) ∧
      ∀ (env : Env) (dev : Dev) (ops : List POp),
        (runOps env dev ops).constructions ≤ 1 := by
  refine ⟨fun env p => rfl, fun env => rfl,
    fun env dev t d c u e h => ?_, fun env dev ops => ?_⟩
  · rw [print_task_none_err env dev e t d c u h]
  · exact (foldl_stepOp_preserves env dev ops ⟨none, 0⟩ ⟨fun _ => rfl, by norm_num⟩).2

/-- Witness for C8: idempotence at a set singleton, failure of a first print
under an empty environment, and the construction bound over a concrete
operation sequence. -/
theorem printer_singleton_constructed_at_most_once_witness :
    ensure_printer_ready env0 (some printer0) = Except.ok (some printer0) ∧
      (_init_printer envEmpty = Except.error (PyExc.valueError msgIdsMustBeSet) ∧
        (print_task envEmpty devOK none "T" "D" dtCreated dtDue).1
          = Except.error (PyExc.valueError msgIdsMustBeSet)) ∧
      (runOps env0 devOK
          [POp.ensure, POp.ensure, POp.task "T" "D" dtCreated dtDue]).constructions ≤ 1 :=
  ⟨printer_singleton_constructed_at_most_once.1 env0 printer0,
    ⟨rfl,
      printer_singleton_constructed_at_most_once.2.2.1 envEmpty devOK "T" "D" dtCreated dtDue
        (PyExc.valueError msgIdsMustBeSet) rfl⟩,
    printer_singleton_constructed_at_most_once.2.2.2 env0 devOK
      [POp.ensure, POp.ensure, POp.task "T" "D" dtCreated dtDue]⟩

/-- C9: the form endpoint performs no emptiness validation: whenever both
date-time strings parse, `print_task` is invoked with the submitted title and
description exactly as given — the device trace and resulting state are those
of that `print_task` call, a successful call yields the confirmation page,
and a failing one the HTTP 500 body. -/
theorem form_no_emptiness_validation
    (env : Env) (dev : Dev) (st : Option Printer) (t d s1 s2 : String) (c u : Datetime)
    (h1 : fromisoformat s1 = some c) (h2 : fromisoformat s2 = some u) :
    (print_from_form env dev st t d s1 s2).2.2 = (print_task env dev st t d c u).2.2 ∧
      (print_from_form env dev st t d s1 s2).2.1 = (print_task env dev st t d c u).2.1 ∧
      ((print_task env dev st t d c u).1 = Except.ok () →
        (print_from_form env dev st t d s1 s2).1 = FormResponse.confirmation t d c u) ∧
      ∀ e, (print_task env dev st t d c u).1 = Except.error e →
        (print_from_form env dev st t d s1 s2).1
          = FormResponse.serverError ("Error printing: " ++ e.message) := by
  rcases hpt : print_task env dev st t d c u with ⟨r, st2, tr⟩
  simp only [print_from_form, h1, h2, hpt]
  cases r with
  | ok v => cases v; simp
  | error e => simp

/-- Witness for C9: an empty title and a whitespace-only description reach
the device untouched and the confirmation page is rendered. -/
theorem form_no_emptiness_validation_witness :
    (print_from_form env0 devOK (some printer0) "" "  "
          "2024-01-05T09:30" "2024-01-05T17:00").2.2
        = (print_task env0 devOK (some printer0) "" "  " dtCreated dtDue).2.2 ∧
      (print_from_form env0 devOK (some printer0) "" "  "
          "2024-01-05T09:30" "2024-01-05T17:00").1
        = FormResponse.confirmation "" "  " dtCreated dtDue :=
  ⟨(form_no_emptiness_validation env0 devOK (some printer0) "" "  "
      "2024-01-05T09:30" "2024-01-05T17:00" dtCreated dtDue (by decide) (by decide)).1,
    (form_no_emptiness_validation env0 devOK (some printer0) "" "  "
      "2024-01-05T09:30" "2024-01-05T17:00" dtCreated dtDue (by decide) (by decide)).2.2.1 rfl⟩

/-- C10: with both IDs present and valid hexadecimal, a `PRINTER_INTERFACE`
value that is not a valid decimal integer makes `_init_printer` raise the
`ValueError` of the `int()` conversion itself, whose message is not either of
the wrapped configuration-error messages used for the ID checks. -/
theorem bad_interface_raises_int_valueerror
    (env : Env) (s : String) (vid pid : Int)
    (hmv : envMissing (env "PRINTER_VENDOR_ID") = false)
    (hmp : envMissing (env "PRINTER_PRODUCT_ID") = false)
    (hv : pyIntBase16 ((env "PRINTER_VENDOR_ID").getD "") = some vid)
    (hp : pyIntBase16 ((env "PRINTER_PRODUCT_ID").getD "") = some pid)
    (hi : env "PRINTER_INTERFACE" = some s)
    (hbad : pyIntBase10 s = none) :
    _init_printer env = Except.error (PyExc.valueError (msgIntLiteral s)) ∧
      msgIntLiteral s ≠ msgIdsMustBeHex ∧ msgIntLiteral s ≠ msgIdsMustBeSet := by
  refine ⟨by simp [_init_printer, hmv, hmp, hv, hp, hi, hbad], ?_, ?_⟩
  · intro h
    have h2 := congrArg (fun x => x.data.head?) h
    simp [msgIntLiteral, msgIdsMustBeHex, pyReprStr, pyQuote, String.data_append] at h2
  · intro h
    have h2 := congrArg (fun x => x.data.head?) h
    simp [msgIntLiteral, msgIdsMustBeSet, pyReprStr, pyQuote, String.data_append] at h2

/-- Witness for C10 at `PRINTER_INTERFACE=usb0` over a well-formed pair of
IDs. -/
theorem bad_interface_raises_int_valueerror_witness :
    _init_printer envBadInterface = Except.error (PyExc.valueError (msgIntLiteral "usb0")) ∧
      msgIntLiteral "usb0" ≠ msgIdsMustBeHex ∧ msgIntLiteral "usb0" ≠ msgIdsMustBeSet :=
  bad_interface_raises_int_valueerror envBadInterface "usb0" 1046 20497
    rfl rfl (by decide) (by decide) rfl (by decide)

end TaskPrinter
